import Mathlib

/-!
Verification development for the ratemylegislator scan-and-ingest engine.

Shallow embedding of:
- the retrying fetch loops (`fetch_page` in backend/src/scraper.py,
  `fetch_bill_page` in data-scraper/src/bill_scraper.py,
  `fetch_member_page` in data-scraper/src/member_scraper.py),
- the open-ended bill scan (`scrape_bills_for_year` in backend/src/scraper.py)
  and the closed member scan (`scrape_members_for_year`),
- the explicit-list batch scans (`scrape_specific_bills`,
  `scrape_specific_members` in data-scraper/src/batch_scraper.py),
- the idempotent transactional ingestion (`BillScraper.scrape_bill` in
  data-scraper/src/bill_scraper.py together with the SQLAlchemy models of
  data-scraper/src/models.py),
- the statistics collector (`ScrapingStats` in backend/src/scraper_utils.py).

Network I/O is modelled by oracles: a function from attempt index to the
outcome of the corresponding HTTP request.
-/

/-- Outcome of one HTTP request attempt, as classified by the retry loops:
a 200 response carrying the page text, a 404, another non-2xx/non-404 status
code, or a raised request exception (timeout / connection error). -/
inductive AttemptResult where
  | ok (text : String)
  | notFound
  | httpError (code : Nat)
  | requestError (msg : String)
deriving DecidableEq, Repr

/-- An attempt outcome that the retry loops treat as transient (retryable):
a non-2xx, non-404 status, or a raised request exception. -/
def isTransient : AttemptResult → Bool
  | .httpError _ => true
  | .requestError _ => true
  | _ => false

/-- Observable trace of one call of a retry loop: the returned value
(`some text` for a 200 response, `none` for a 404 or exhausted retries),
the number of request attempts issued, and the backoff sleeps performed,
in seconds, in order. -/
structure FetchTrace where
  result : Option String
  attempts : Nat
  sleeps : List Nat
deriving DecidableEq, Repr

/-- The `for attempt in range(max_retries)` retry loop shared verbatim by
`HawaiiLegislatureScraper.fetch_page` (backend/src/scraper.py lines 37-51),
`BillScraper.fetch_bill_page` (data-scraper/src/bill_scraper.py lines 43-57)
and `MemberScraper.fetch_member_page` (data-scraper/src/member_scraper.py
lines 32-46).  `remaining` is the number of loop iterations left
(`max_retries - attempt`); `attempt` is the current index.  A 200 returns the
text, a 404 returns `None` at once; any other status sleeps `2 ** attempt`
and retries; a request exception sleeps `2 ** attempt` only when
`attempt < max_retries - 1`, then retries; falling off the loop returns
`None`. -/
def fetchLoopAux (results : Nat → AttemptResult) (max_retries : Nat) :
    Nat → Nat → FetchTrace
  | 0, _ => ⟨none, 0, []⟩
  | remaining + 1, attempt =>
    match results attempt with
    | .ok text => ⟨some text, 1, []⟩
    | .notFound => ⟨none, 1, []⟩
    | .httpError _ =>
      let rest := fetchLoopAux results max_retries remaining (attempt + 1)
      ⟨rest.result, rest.attempts + 1, 2 ^ attempt :: rest.sleeps⟩
    | .requestError _ =>
      let rest := fetchLoopAux results max_retries remaining (attempt + 1)
      ⟨rest.result, rest.attempts + 1,
        (if attempt < max_retries - 1 then [2 ^ attempt] else []) ++ rest.sleeps⟩

/-- One full run of the retry loop, starting at attempt 0 with
`max_retries` iterations available. -/
def fetch_loop (results : Nat → AttemptResult) (max_retries : Nat) : FetchTrace :=
  fetchLoopAux results max_retries max_retries 0

/-- `HawaiiLegislatureScraper.fetch_page` (backend/src/scraper.py lines
35-51) with its default `max_retries=3`: just the shared retry loop, no
session bootstrap. -/
def backend_fetch_page (results : Nat → AttemptResult) (max_retries : Nat) :
    FetchTrace :=
  fetch_loop results max_retries

/-- Observable behavior of one page-fetch call: how many bootstrap requests
to the site root it issued before the retry loop, whether that bootstrap
raised (the `except: pass` swallows it), and the retry-loop trace. -/
structure PageFetch where
  bootstrapRequests : Nat
  bootstrapFailed : Bool
  loop : FetchTrace
deriving DecidableEq, Repr

/-- `BillScraper.fetch_bill_page` (data-scraper/src/bill_scraper.py lines
32-57): every call first issues one `session.get` of the site root inside
`try ... except: pass` (lines 37-41), then runs the retry loop with
`max_retries=3`.  The loop trace does not depend on whether the bootstrap
request failed. -/
def fetch_bill_page (bootstrapFails : Bool) (results : Nat → AttemptResult) :
    PageFetch :=
  ⟨1, bootstrapFails, fetch_loop results 3⟩

/-- `MemberScraper.fetch_member_page` (data-scraper/src/member_scraper.py
lines 28-46): the same retry loop with `max_retries=3` and no bootstrap
request at all. -/
def fetch_member_page (results : Nat → AttemptResult) : PageFetch :=
  ⟨0, false, fetch_loop results 3⟩

/-- Total number of bootstrap (site-root) requests a `BillScraper` instance
issues over a sequence of `fetch_bill_page` calls; each call is given its
own bootstrap-failure flag and attempt oracle. -/
def lifetimeBootstrapRequests
    (calls : List (Bool × (Nat → AttemptResult))) : Nat :=
  (calls.map fun c => (fetch_bill_page c.1 c.2).bootstrapRequests).sum

example : fetch_loop (fun _ => .requestError "boom") 3 =
    ⟨none, 3, [1, 2]⟩ := by decide

example : fetch_loop (fun _ => .httpError 500) 3 =
    ⟨none, 3, [1, 2, 4]⟩ := by decide

example : fetch_loop (fun _ => .notFound) 3 = ⟨none, 1, []⟩ := by decide

/-- The validity test `scrape_bill` in backend/src/scraper.py line 66
applies to a fetched page: `"measure_indiv_Archives" in response.text`. -/
def pageIsValidBill (text : String) : Bool :=
  2 ≤ (text.splitOn "measure_indiv_Archives").length

/-- `HawaiiLegislatureScraper.scrape_bill` (backend/src/scraper.py lines
53-70) reduced to its outcome: fetch the page with the default
`max_retries=3`; if the fetch returned `None` (404 or exhausted retries)
report `False`; otherwise report whether the page text contains the
`measure_indiv_Archives` marker. -/
def backendScrapeBill (results : Nat → AttemptResult) : Bool :=
  match (backend_fetch_page results 3).result with
  | none => false
  | some text => pageIsValidBill text

/-- The `while consecutive_404s < 2` loop of
`HawaiiLegislatureScraper.scrape_bills_for_year` (backend/src/scraper.py
lines 136-151) for one bill type, returning the list of bill numbers
attempted, in order.  `outcome n` is the result of `scrape_bill` for bill
number `n`; `misses` is `consecutive_404s`; `n` is `bill_number`.  After
each attempt the counter resets on success and increments otherwise, the
number is incremented, and the loop breaks once `bill_number > 10000`
(safety limit) or, at the top, once `consecutive_404s < 2` fails.  `fuel`
bounds the recursion; since `n` starts at 1 and the loop breaks as soon as
`n + 1` exceeds the ceiling, `fuel = ceiling` iterations always suffice, so
the top-level instantiation below never exhausts it. -/
def scanOpenFuel (outcome : Nat → Bool) (ceiling : Nat) :
    Nat → Nat → Nat → List Nat
  | 0, _, _ => []
  | fuel + 1, misses, n =>
    if misses < 2 then
      n :: (if ceiling < n + 1 then []
        else scanOpenFuel outcome ceiling fuel
          (if outcome n then 0 else misses + 1) (n + 1))
    else []

/-- The bill numbers attempted by one bill type's scan in
`scrape_bills_for_year`: the open-ended loop starting at `bill_number = 1`
with `consecutive_404s = 0` and safety ceiling 10000. -/
def scan_bills_attempts (outcome : Nat → Bool) : List Nat :=
  scanOpenFuel outcome 10000 10000 0 1

/-- `HawaiiLegislatureScraper.scrape_bills_for_year` for one bill type with
the per-bill-number fetch oracle made explicit: `results n` gives the
attempt-by-attempt network outcomes for bill number `n`. -/
def scrape_bills_for_year_attempts (results : Nat → Nat → AttemptResult) :
    List Nat :=
  scan_bills_attempts fun n => backendScrapeBill (results n)

/-- The member IDs attempted by `HawaiiLegislatureScraper.
scrape_members_for_year` (backend/src/scraper.py lines 153-167): the loop
`for member_id in range(1, 1501)` attempts every ID from 1 to 1500
unconditionally, whatever each `scrape_member` call returns. -/
def scrape_members_for_year_attempts : List Nat :=
  List.range' 1 1500

example : scan_bills_attempts (fun _ => false) = [1, 2] := by decide

example :
    scan_bills_attempts (fun n => decide (n ≤ 3)) = [1, 2, 3, 4, 5] := by
  decide

/-- `ScrapingStats` (backend/src/scraper_utils.py lines 254-289): four
counters.  The `start_time` member is modelled outside the structure: the
elapsed wall time is an input of `get_summary` below. -/
structure ScrapingStats where
  total_attempted : Nat
  total_successful : Nat
  total_failed : Nat
  total_skipped : Nat
deriving DecidableEq, Repr

/-- `ScrapingStats.reset`: all four counters return to zero (and
`start_time` is refreshed, which the elapsed-time input models). -/
def ScrapingStats.reset : ScrapingStats := ⟨0, 0, 0, 0⟩

/-- `ScrapingStats.record_attempt`. -/
def ScrapingStats.record_attempt (s : ScrapingStats) : ScrapingStats :=
  { s with total_attempted := s.total_attempted + 1 }

/-- `ScrapingStats.record_success`. -/
def ScrapingStats.record_success (s : ScrapingStats) : ScrapingStats :=
  { s with total_successful := s.total_successful + 1 }

/-- `ScrapingStats.record_failure`. -/
def ScrapingStats.record_failure (s : ScrapingStats) : ScrapingStats :=
  { s with total_failed := s.total_failed + 1 }

/-- `ScrapingStats.record_skip`. -/
def ScrapingStats.record_skip (s : ScrapingStats) : ScrapingStats :=
  { s with total_skipped := s.total_skipped + 1 }

/-- The derived fields of `ScrapingStats.get_summary`
(backend/src/scraper_utils.py lines 278-289).  Arithmetic is over `ℚ`
(Python computes these with real division); `elapsed` is the wall time
since the last reset in seconds. -/
structure StatsSummary where
  attempted : Nat
  successful : Nat
  failed : Nat
  skipped : Nat
  success_rate : ℚ
  avg_time_per_item : ℚ
deriving DecidableEq, Repr

/-- `ScrapingStats.get_summary`: both divisions use the denominator
`max(self.total_attempted, 1)`. -/
def ScrapingStats.get_summary (s : ScrapingStats) (elapsed : ℚ) :
    StatsSummary :=
  { attempted := s.total_attempted
    successful := s.total_successful
    failed := s.total_failed
    skipped := s.total_skipped
    success_rate :=
      (s.total_successful : ℚ) / (max s.total_attempted 1 : Nat) * 100
    avg_time_per_item := elapsed / (max s.total_attempted 1 : Nat) }

/-- Result of one `scrape_bill` / `scrape_member` call as seen by the
batch loops of data-scraper/src/batch_scraper.py: it returned `True`,
returned `False`, or raised an exception. -/
inductive TaskOutcome where
  | succeeded
  | returnedFalse
  | raised (msg : String)
deriving DecidableEq, Repr

/-- One iteration of the explicit-list loops in
`BatchScraper.scrape_specific_bills` / `scrape_specific_members`
(data-scraper/src/batch_scraper.py lines 111-126 and 135-150):
`record_attempt` first; inside `try`, a `True` return records a success
and a `False` return records a failure; a raised exception is caught by
the `except` clause, logged, and records a failure. -/
def scrapeSpecificStep (s : ScrapingStats) (o : TaskOutcome) : ScrapingStats :=
  let s := s.record_attempt
  match o with
  | .succeeded => s.record_success
  | .returnedFalse => s.record_failure
  | .raised _ => s.record_failure

/-- `BatchScraper.scrape_specific_bills` (data-scraper/src/batch_scraper.py
lines 106-128): reset the stats, then process every
`(bill_type, bill_number, year)` tuple of the list in order, never breaking
out of the loop. -/
def scrape_specific_bills (outcome : String × Nat × Nat → TaskOutcome)
    (bill_list : List (String × Nat × Nat)) : ScrapingStats :=
  bill_list.foldl (fun s key => scrapeSpecificStep s (outcome key))
    ScrapingStats.reset

/-- `BatchScraper.scrape_specific_members`
(data-scraper/src/batch_scraper.py lines 130-152): the same loop over
`(member_id, year)` tuples. -/
def scrape_specific_members (outcome : Nat × Nat → TaskOutcome)
    (member_list : List (Nat × Nat)) : ScrapingStats :=
  member_list.foldl (fun s key => scrapeSpecificStep s (outcome key))
    ScrapingStats.reset

example :
    scrape_specific_bills
      (fun k => if k.2.1 = 2 then .raised "boom" else .succeeded)
      [("SB", 1, 2025), ("SB", 2, 2025), ("HB", 3, 2025)] =
    ⟨3, 2, 1, 0⟩ := by decide

/-- Value of a digit string, as Python's `int` reads the capture group of
a `(\d+)` pattern. -/
def digitsToNat (ds : List Char) : Nat :=
  ds.foldl (fun a c => a * 10 + (c.toNat - Char.toNat '0')) 0

/-- Case-insensitively strip the literal token `tok` from the front of
`cs`, returning the remainder on success. -/
def stripTokenCI : List Char → List Char → Option (List Char)
  | [], cs => some cs
  | t :: ts, c :: cs => if c.toLower = t then stripTokenCI ts cs else none
  | _ :: _, [] => none

/-- Strip one optional literal dot, the `\.?` of the regexes below. -/
def dropOptDot : List Char → List Char
  | '.' :: cs => cs
  | cs => cs

/-- Match the regex `Act\s+(\d+)` (with `re.IGNORECASE`) anchored at the
start of `cs`, returning the captured number
(`BillScraper.extract_act_info`, data-scraper/src/bill_scraper.py line
219). -/
def matchActAt (cs : List Char) : Option Nat :=
  match stripTokenCI ['a', 'c', 't'] cs with
  | none => none
  | some rest =>
    match rest with
    | [] => none
    | w :: _ =>
      if w.isWhitespace then
        let digits := (rest.dropWhile Char.isWhitespace).takeWhile Char.isDigit
        if digits.isEmpty then none else some (digitsToNat digits)
      else none

/-- Match the regex `Gov\.?\s*Msg\.?\s*No\.?\s*(\d+)` (with
`re.IGNORECASE`) anchored at the start of `cs`
(data-scraper/src/bill_scraper.py line 224). -/
def matchGovAt (cs : List Char) : Option Nat :=
  match stripTokenCI ['g', 'o', 'v'] cs with
  | none => none
  | some r1 =>
    match stripTokenCI ['m', 's', 'g']
        ((dropOptDot r1).dropWhile Char.isWhitespace) with
    | none => none
    | some r2 =>
      match stripTokenCI ['n', 'o']
          ((dropOptDot r2).dropWhile Char.isWhitespace) with
      | none => none
      | some r3 =>
        let digits :=
          ((dropOptDot r3).dropWhile Char.isWhitespace).takeWhile Char.isDigit
        if digits.isEmpty then none else some (digitsToNat digits)

/-- `re.search` over the character list: try the anchored matcher at every
position, left to right, returning the first hit. -/
def searchFirst (f : List Char → Option Nat) : List Char → Option Nat
  | [] => none
  | c :: cs =>
    match f (c :: cs) with
    | some n => some n
    | none => searchFirst f cs

/-- One entry of the `status_updates` list that
`BillScraper.parse_status_updates` extracts from the page (the parse
capability is external to the engine, so its output is input data here).
The parsed `datetime` is modelled as a day ordinal. -/
structure StatusUpdateData where
  date : Nat
  chamber : String
  action : String
  committee : Option String
  conference_committee_report_number : Option String
  meeting_info : Option String
deriving DecidableEq, Repr

/-- One entry of the `versions` list from `BillScraper.parse_bill_versions`. -/
structure VersionData where
  version_name : String
  version_code : Option String
  html_url : String
  pdf_url : Option String
deriving DecidableEq, Repr

/-- One entry of the `committee_reports` list from
`BillScraper.parse_committee_reports`. -/
structure ReportData where
  report_name : String
  html_url : String
  pdf_url : Option String
deriving DecidableEq, Repr

/-- `BillScraper.extract_act_info` (data-scraper/src/bill_scraper.py lines
210-228): fold over the status updates in order; whenever an update's
action matches the act / governor-message regex, overwrite that component,
so the last matching update wins. -/
def extract_act_info (status_updates : List StatusUpdateData) :
    Option Nat × Option Nat :=
  status_updates.foldl
    (fun acc u =>
      (match searchFirst matchActAt u.action.toList with
        | some n => some n
        | none => acc.1,
       match searchFirst matchGovAt u.action.toList with
        | some n => some n
        | none => acc.2))
    (none, none)

example :
    extract_act_info
      [⟨1, "H", "Became Act 12, Gov. Msg. No. 1203", none, none, none⟩] =
    (some 12, some 1203) := by decide

example : searchFirst matchActAt "Enacted without signature".toList = none := by
  decide

/-- The soup-level data of one fetched bill page, as consumed by
`BillScraper.scrape_bill`: whether the page has the
`MainContent_LinkButtonMeasure` anchor (line 243), the header fields
from `parse_bill_header`, and the three child collections.  The
`parse_bill_header` dictionary never receives a `title` entry, so the
`title` column is not represented here. -/
structure ParsedBillPage where
  hasMeasureLink : Bool
  current_version : Option String
  description : Option String
  introducer : Option String
  companion : Option String
  package : Option String
  current_referral : Option String
  current_pdf_url : Option String
  status_updates : List StatusUpdateData
  versions : List VersionData
  committee_reports : List ReportData
deriving DecidableEq, Repr

/-- A row of the `bills` table (data-scraper/src/models.py lines 97-135;
the `created_at`/`updated_at` clock defaults and the unused
`rss_feed_url` column are not modelled). -/
structure BillRow where
  id : Nat
  bill_type : String
  bill_number : Nat
  year : Nat
  current_version : Option String
  title : Option String
  description : Option String
  introducer : Option String
  companion : Option String
  package : Option String
  current_referral : Option String
  act_number : Option Nat
  governor_message_number : Option Nat
  current_bill_url : String
  current_pdf_url : Option String
deriving DecidableEq, Repr

/-- A row of `bill_status_updates` (models.py lines 137-156; the
autoincrement primary key and `created_at` are not modelled). -/
structure BillStatusUpdateRow where
  bill_id : Nat
  date : Nat
  chamber : String
  action : String
  committee : Option String
  conference_committee_report_number : Option String
  meeting_info : Option String
deriving DecidableEq, Repr

/-- A row of `bill_versions` (models.py lines 158-176). -/
structure BillVersionRow where
  bill_id : Nat
  version_name : String
  version_code : Option String
  html_url : String
  pdf_url : Option String
deriving DecidableEq, Repr

/-- A row of `bill_committee_reports` (models.py lines 178-196). -/
structure BillCommitteeReportRow where
  bill_id : Nat
  report_name : String
  html_url : String
  pdf_url : Option String
deriving DecidableEq, Repr

/-- The bill-side tables of the store, plus the autoincrement counter that
`db_session.flush()` consults to assign `bill.id`. -/
structure Store where
  bills : List BillRow
  bill_status_updates : List BillStatusUpdateRow
  bill_versions : List BillVersionRow
  bill_committee_reports : List BillCommitteeReportRow
  nextBillId : Nat
deriving DecidableEq, Repr

/-- The existence query of `BillScraper.scrape_bill` (lines 251-255):
`query(Bill).filter_by(bill_type=…, bill_number=…, year=…).first()` is not
`None`. -/
def billExists (store : Store) (bill_type : String)
    (bill_number year : Nat) : Bool :=
  store.bills.any fun b =>
    b.bill_type == bill_type && b.bill_number == bill_number && b.year == year

/-- The measure URL built by `fetch_bill_page` (line 34) and stored as
`current_bill_url`. -/
def billUrl (bill_type : String) (bill_number year : Nat) : String :=
  "https://www.capitol.hawaii.gov/session/measure_indiv.aspx?billtype="
    ++ bill_type ++ "&billnumber=" ++ toString bill_number
    ++ "&year=" ++ toString year

/-- Number of session operations `scrape_bill`'s `try` block performs when
the bill is new: the existence query (index 0), the parent `add` plus
`flush` (index 1), one `add` per child row, and the final `commit`.
`failAt = some k` with `k` below this count raises at that operation. -/
def scrapeBillOpsCount (page : ParsedBillPage) : Nat :=
  3 + page.status_updates.length + page.versions.length
    + page.committee_reports.length

/-- The committed aggregate of `BillScraper.scrape_bill` (lines 270-325):
the parent `BillRow` (with `id` assigned from the autoincrement counter at
`flush`) followed by one child row per status update, version and
committee report, each carrying the parent's id. -/
def insertBillAggregate (store : Store) (bill_type : String)
    (bill_number year : Nat) (page : ParsedBillPage) : Store :=
  let actInfo := extract_act_info page.status_updates
  let bid := store.nextBillId
  let bill : BillRow :=
    { id := bid
      bill_type := bill_type
      bill_number := bill_number
      year := year
      current_version := page.current_version
      title := none
      description := page.description
      introducer := page.introducer
      companion := page.companion
      package := page.package
      current_referral := page.current_referral
      act_number := actInfo.1
      governor_message_number := actInfo.2
      current_bill_url := billUrl bill_type bill_number year
      current_pdf_url := page.current_pdf_url }
  { bills := store.bills ++ [bill]
    bill_status_updates := store.bill_status_updates
      ++ page.status_updates.map fun u =>
        ⟨bid, u.date, u.chamber, u.action, u.committee,
          u.conference_committee_report_number, u.meeting_info⟩
    bill_versions := store.bill_versions
      ++ page.versions.map fun v =>
        ⟨bid, v.version_name, v.version_code, v.html_url, v.pdf_url⟩
    bill_committee_reports := store.bill_committee_reports
      ++ page.committee_reports.map fun r =>
        ⟨bid, r.report_name, r.html_url, r.pdf_url⟩
    nextBillId := bid + 1 }

/-- `BillScraper.scrape_bill` (data-scraper/src/bill_scraper.py lines
230-334).  `fetched` is `fetch_bill_page`'s outcome: `none` when it
returned `None`, otherwise the parsed page.  `failAt = some k` makes the
`k`-th session operation of the `try` block raise; the `except` clause then
runs `db_session.rollback()`, so the store is returned untouched and the
call reports `False`.  With no failure the whole aggregate is committed at
once and the call reports `True`.  A page without the measure anchor
reports `False` before any session work; an already-present natural key
reports `True` from inside the `try` block without adding anything. -/
def scrape_bill (bill_type : String) (bill_number year : Nat)
    (fetched : Option ParsedBillPage) (failAt : Option Nat)
    (store : Store) : Bool × Store :=
  match fetched with
  | none => (false, store)
  | some page =>
    if page.hasMeasureLink = false then (false, store)
    else if failAt = some 0 then (false, store)
    else if billExists store bill_type bill_number year then (true, store)
    else
      match failAt with
      | some k =>
        if k < scrapeBillOpsCount page then (false, store)
        else (true, insertBillAggregate store bill_type bill_number year page)
      | none => (true, insertBillAggregate store bill_type bill_number year page)

/-- A valid parsed page with no child rows, used as concrete input. -/
def samplePage : ParsedBillPage :=
  ⟨true, none, none, none, none, none, none, none, [], [], []⟩

/-- A valid parsed page with one entry in each child collection. -/
def samplePageChildren : ParsedBillPage :=
  ⟨true, some "SB1300 SD1", some "Relating to taxation.", none, none, none,
    none, none,
    [⟨737860, "S", "Passed First Reading.", none, none, none⟩],
    [⟨"SB1300_SD1", some "SD1", "/session/SB1300_SD1.HTM", none⟩],
    [⟨"SB1300_SD1_SSCR96_", "/session/SSCR96_.htm", none⟩]⟩

/-- A store already holding the bill (SB, 1300, 2025). -/
def sampleStore : Store :=
  ⟨[⟨1, "SB", 1300, 2025, none, none, none, none, none, none, none, none,
      none, billUrl "SB" 1300 2025, none⟩], [], [], [], 2⟩

/-- An empty store. -/
def emptyStore : Store := ⟨[], [], [], [], 1⟩

/- ## Claim theorems -/

/-- C1: for every store state and every record whose natural key
(bill_type, bill_number, year) already has a row in the store, a
`scrape_bill` call for that key that reaches the ingestion step (the page
was fetched and carries the measure anchor, and the existence query itself
does not raise) leaves the store content and every row count identical —
no new parent row, no new child rows — and returns success: a duplicate
ingestion is a detected no-op, never a duplicate row. -/
theorem scrape_bill_duplicate_noop (store : Store) (bill_type : String)
    (bill_number year : Nat) (page : ParsedBillPage) (failAt : Option Nat)
    (hvalid : page.hasMeasureLink = true)
    (hq : failAt ≠ some 0)
    (hex : billExists store bill_type bill_number year = true) :
    scrape_bill bill_type bill_number year (some page) failAt store
      = (true, store) ∧
    (scrape_bill bill_type bill_number year (some page) failAt store).2.bills.length
      = store.bills.length ∧
    (scrape_bill bill_type bill_number year (some page) failAt store).2.bill_status_updates.length
      = store.bill_status_updates.length ∧
    (scrape_bill bill_type bill_number year (some page) failAt store).2.bill_versions.length
      = store.bill_versions.length ∧
    (scrape_bill bill_type bill_number year (some page) failAt store).2.bill_committee_reports.length
      = store.bill_committee_reports.length := by
  have h : scrape_bill bill_type bill_number year (some page) failAt store
      = (true, store) := by
    simp [scrape_bill, hvalid, hq, hex]
  exact ⟨h, by rw [h], by rw [h], by rw [h], by rw [h]⟩

/-- C1 witness: ingesting the already-present key (SB, 1300, 2025) into
`sampleStore` returns success and the unchanged store. -/
theorem scrape_bill_duplicate_noop_witness :
    scrape_bill "SB" 1300 2025 (some samplePage) none sampleStore
      = (true, sampleStore) :=
  (scrape_bill_duplicate_noop sampleStore "SB" 1300 2025 samplePage none
    rfl (by decide) (by decide)).1

/-- C2: when `scrape_bill` ingests a new bill, the parent row and every
child row are committed as one logical transaction: a failure raised at any
session operation between the existence check and the commit rolls the
session back, leaving the store exactly as before the call and reporting
failure; with no failure the parent and all children of the aggregate land
together. -/
theorem scrape_bill_atomic (store : Store) (bill_type : String)
    (bill_number year : Nat) (page : ParsedBillPage)
    (hvalid : page.hasMeasureLink = true)
    (hnew : billExists store bill_type bill_number year = false) :
    (∀ k, k < scrapeBillOpsCount page →
      scrape_bill bill_type bill_number year (some page) (some k) store
        = (false, store)) ∧
    scrape_bill bill_type bill_number year (some page) none store
      = (true, insertBillAggregate store bill_type bill_number year page) ∧
    (insertBillAggregate store bill_type bill_number year page).bills.length
      = store.bills.length + 1 ∧
    (insertBillAggregate store bill_type bill_number year page).bill_status_updates.length
      = store.bill_status_updates.length + page.status_updates.length ∧
    (insertBillAggregate store bill_type bill_number year page).bill_versions.length
      = store.bill_versions.length + page.versions.length ∧
    (insertBillAggregate store bill_type bill_number year page).bill_committee_reports.length
      = store.bill_committee_reports.length + page.committee_reports.length := by
  refine ⟨?_, ?_, ?_, ?_, ?_, ?_⟩
  · intro k hk
    by_cases hk0 : k = 0
    · subst hk0
      simp [scrape_bill, hvalid]
    · simp [scrape_bill, hvalid, hnew, hk0, hk]
  · simp [scrape_bill, hvalid, hnew]
  · simp [insertBillAggregate]
  · simp [insertBillAggregate]
  · simp [insertBillAggregate]
  · simp [insertBillAggregate]

/-- C2 witness: ingesting (SB, 1300, 2025) into the empty store with a
failure at session operation 1 (the parent insert) leaves the store empty
and fails; with no failure it commits the whole aggregate. -/
theorem scrape_bill_atomic_witness :
    scrape_bill "SB" 1300 2025 (some samplePageChildren) (some 1) emptyStore
      = (false, emptyStore) ∧
    scrape_bill "SB" 1300 2025 (some samplePageChildren) none emptyStore
      = (true, insertBillAggregate emptyStore "SB" 1300 2025 samplePageChildren) := by
  have h := scrape_bill_atomic emptyStore "SB" 1300 2025 samplePageChildren
    rfl (by decide)
  exact ⟨h.1 1 (by decide), h.2.1⟩

/-- Counting invariant for the explicit-list batch loops: folding
`scrapeSpecificStep` over a key list adds the list's length to the
attempted counter, adds it to successes-plus-failures, and never touches
the skipped counter, whatever the per-key outcomes are. -/
lemma scrapeSpecificStep_foldl_counts {α : Type} (outcome : α → TaskOutcome) :
    ∀ (l : List α) (s : ScrapingStats),
      (l.foldl (fun s key => scrapeSpecificStep s (outcome key)) s).total_attempted
        = s.total_attempted + l.length ∧
      (l.foldl (fun s key => scrapeSpecificStep s (outcome key)) s).total_successful
          + (l.foldl (fun s key => scrapeSpecificStep s (outcome key)) s).total_failed
        = s.total_successful + s.total_failed + l.length ∧
      (l.foldl (fun s key => scrapeSpecificStep s (outcome key)) s).total_skipped
        = s.total_skipped := by
  intro l
  induction l with
  | nil => intro s; exact ⟨rfl, rfl, rfl⟩
  | cons a t ih =>
    intro s
    have h := ih (scrapeSpecificStep s (outcome a))
    cases houtcome : outcome a <;>
      simp only [List.foldl_cons, List.length_cons] at h ⊢ <;>
      rw [houtcome] at h ⊢ <;>
      simp only [scrapeSpecificStep, ScrapingStats.record_attempt,
        ScrapingStats.record_success, ScrapingStats.record_failure] at h ⊢ <;>
      omega

/-- C7: for every closed (explicit) key list of size K, the batch scan
attempts exactly K keys regardless of each key's outcome: per-key errors
(a `False` return or a raised exception) are caught inside the loop
iteration and counted as failures, every key ends up counted as a success
or a failure, and nothing is skipped — no single bad record halts the
batch and no miss-based early termination occurs.  Stated for both
`scrape_specific_bills` and `scrape_specific_members`. -/
theorem scrape_specific_exhaustive
    (billOutcome : String × Nat × Nat → TaskOutcome)
    (memberOutcome : Nat × Nat → TaskOutcome)
    (bill_list : List (String × Nat × Nat))
    (member_list : List (Nat × Nat)) :
    (scrape_specific_bills billOutcome bill_list).total_attempted
      = bill_list.length ∧
    (scrape_specific_bills billOutcome bill_list).total_successful
        + (scrape_specific_bills billOutcome bill_list).total_failed
      = bill_list.length ∧
    (scrape_specific_members memberOutcome member_list).total_attempted
      = member_list.length ∧
    (scrape_specific_members memberOutcome member_list).total_successful
        + (scrape_specific_members memberOutcome member_list).total_failed
      = member_list.length := by
  have hb := scrapeSpecificStep_foldl_counts billOutcome bill_list
    ScrapingStats.reset
  have hm := scrapeSpecificStep_foldl_counts memberOutcome member_list
    ScrapingStats.reset
  simp only [ScrapingStats.reset] at hb hm
  exact ⟨by simpa using hb.1, by simpa using hb.2.1,
    by simpa using hm.1, by simpa using hm.2.1⟩

/-- C10: `ScrapingStats.get_summary` is total for every counter state:
both derived rates divide by `max(total_attempted, 1)`, which is never
zero, and immediately after `reset` the summary reports a success rate of
0 (and an average time of `elapsed / 1`). -/
theorem get_summary_total (s : ScrapingStats) (elapsed : ℚ) :
    ((max s.total_attempted 1 : Nat) : ℚ) ≠ 0 ∧
    (ScrapingStats.reset.get_summary elapsed).success_rate = 0 ∧
    (ScrapingStats.reset.get_summary elapsed).avg_time_per_item = elapsed ∧
    (ScrapingStats.reset.get_summary elapsed).attempted = 0 := by
  refine ⟨?_, ?_, ?_, rfl⟩
  · have h : max s.total_attempted 1 ≠ 0 :=
      Nat.one_le_iff_ne_zero.mp (le_max_right _ _)
    exact_mod_cast h
  · simp [ScrapingStats.get_summary, ScrapingStats.reset]
  · simp [ScrapingStats.get_summary, ScrapingStats.reset]

/-- Once the consecutive-miss counter has reached 2, the scan loop's top
test fails at once: no further key is attempted. -/
lemma scanOpenFuel_stop (outcome : Nat → Bool) (C : Nat) :
    ∀ fuel n, scanOpenFuel outcome C fuel 2 n = [] := by
  intro fuel n
  cases fuel with
  | zero => rfl
  | succ f => simp [scanOpenFuel]

/-- Every key the open-ended loop attempts is at most the ceiling, as long
as the starting key is. -/
lemma scanOpenFuel_mem_le (outcome : Nat → Bool) (C : Nat) :
    ∀ fuel misses n, n ≤ C →
      ∀ k ∈ scanOpenFuel outcome C fuel misses n, k ≤ C := by
  intro fuel
  induction fuel with
  | zero => intro misses n _ k hk; simp [scanOpenFuel] at hk
  | succ fuel ih =>
    intro misses n hn k hk
    simp only [scanOpenFuel] at hk
    by_cases hm : misses < 2
    · rw [if_pos hm] at hk
      rcases List.mem_cons.mp hk with h | h
      · omega
      · by_cases hc : C < n + 1
        · rw [if_pos hc] at h
          simp at h
        · rw [if_neg hc] at h
          exact ih _ _ (by omega) k h
    · rw [if_neg hm] at hk
      simp at hk

/-- The open-ended loop attempts at most `fuel` keys. -/
lemma scanOpenFuel_length_le (outcome : Nat → Bool) (C : Nat) :
    ∀ fuel misses n, (scanOpenFuel outcome C fuel misses n).length ≤ fuel := by
  intro fuel
  induction fuel with
  | zero => intro misses n; simp [scanOpenFuel]
  | succ fuel ih =>
    intro misses n
    simp only [scanOpenFuel]
    by_cases hm : misses < 2
    · rw [if_pos hm]
      by_cases hc : C < n + 1
      · simp [if_pos hc]
      · rw [if_neg hc]
        simpa using ih (if outcome n = true then 0 else misses + 1) (n + 1)
    · rw [if_neg hm]
      simp

/-- Exact run of the open-ended loop when the first two consecutive misses
sit at keys `p` and `p + 1`: starting anywhere at or below `p + 1` with a
counter state consistent with the outcome history, the loop attempts
exactly the keys up to `p + 1` and stops.  The three counter hypotheses are
the loop invariant: the counter is 0 or 1, a counter of 1 means the
previous key missed (so either the current key is found or it is `p + 1`),
and on reaching `p + 1` the counter is 1. -/
lemma scanOpenFuel_first_two_misses (outcome : Nat → Bool) (C p : Nat)
    (h1 : outcome p = false) (h2 : outcome (p + 1) = false)
    (hC : p + 1 ≤ C)
    (hfirst : ∀ j, 1 ≤ j → j + 1 ≤ p →
      outcome j = true ∨ outcome (j + 1) = true) :
    ∀ fuel misses n, 1 ≤ n → n ≤ p + 1 → p + 2 ≤ fuel + n →
      (misses = 0 ∨ misses = 1) →
      (misses = 1 → (outcome n = true ∨ n = p + 1)) →
      (n = p + 1 → misses = 1) →
      scanOpenFuel outcome C fuel misses n = List.range' n (p + 2 - n) := by
  intro fuel
  induction fuel with
  | zero =>
    intro misses n _ hnp hfuel _ _ _
    exact absurd hfuel (by omega)
  | succ fuel ih =>
    intro misses n h1n hnp hfuel hm01 hminv hpm
    have hmlt : misses < 2 := by omega
    simp only [scanOpenFuel, if_pos hmlt]
    by_cases hn : n = p + 1
    · -- the second consecutive miss: the loop stops after this attempt
      have hm1 : misses = 1 := hpm hn
      subst hn
      have hrange : p + 2 - (p + 1) = 1 := by omega
      by_cases hc : C < p + 1 + 1
      · rw [if_pos hc, hrange]
        rfl
      · rw [if_neg hc, h2, hrange]
        simp only [Bool.false_eq_true, if_false, hm1]
        rw [scanOpenFuel_stop]
        rfl
    · -- n ≤ p: the loop continues to n + 1
      have hnle : n + 1 ≤ p + 1 := by omega
      have hc : ¬ C < n + 1 := by omega
      rw [if_neg hc]
      rw [show p + 2 - n = (p + 2 - (n + 1)) + 1 by omega, List.range'_succ]
      cases houtcome : outcome n with
      | true =>
        simp only [if_true]
        have hlast : n + 1 = p + 1 → (0 : Nat) = 1 := by
          intro heq
          have : n = p := by omega
          rw [this, h1] at houtcome
          exact absurd houtcome (by simp)
        rw [ih 0 (n + 1) (by omega) hnle (by omega) (Or.inl rfl)
          (by intro h; exact absurd h (by simp)) hlast]
      | false =>
        simp only [Bool.false_eq_true, if_false]
        have hm0 : misses = 0 := by
          rcases hm01 with h | h
          · exact h
          · rcases hminv h with hh | hh
            · rw [houtcome] at hh
              exact absurd hh (by simp)
            · exact absurd hh hn
        rw [hm0]
        have hnext : outcome (n + 1) = true ∨ n + 1 = p + 1 := by
          by_cases hnp1 : n + 1 = p + 1
          · exact Or.inr hnp1
          · left
            rcases hfirst n h1n (by omega) with hh | hh
            · rw [houtcome] at hh
              exact absurd hh (by simp)
            · exact hh
        rw [ih 1 (n + 1) (by omega) hnle (by omega) (Or.inr rfl)
          (fun _ => hnext) (fun _ => rfl)]

/-- C4: for every outcome sequence of the open-ended bill scan (threshold
2) in which keys `p` and `p + 1` are the first two consecutive misses, the
scan attempts exactly the keys 1 through `p + 1` — every Found outcome
before `p` resets the counter so scanning continues — and then stops: key
`p + 2` is never fetched.  (`p + 1 ≤ 10000` places the two misses inside
the scan's key space, below its safety ceiling.) -/
theorem scan_stops_after_two_misses (outcome : Nat → Bool) (p : Nat)
    (hp : 1 ≤ p) (hple : p + 1 ≤ 10000)
    (hmiss1 : outcome p = false) (hmiss2 : outcome (p + 1) = false)
    (hfirst : ∀ j, 1 ≤ j → j + 1 ≤ p →
      outcome j = true ∨ outcome (j + 1) = true) :
    scan_bills_attempts outcome = List.range' 1 (p + 1) ∧
    (p + 1) ∈ scan_bills_attempts outcome ∧
    (p + 2) ∉ scan_bills_attempts outcome := by
  have h := scanOpenFuel_first_two_misses outcome 10000 p hmiss1 hmiss2 hple
    hfirst 10000 0 1 (by omega) (by omega) (by omega) (Or.inl rfl)
    (by intro hh; exact absurd hh (by omega)) (by intro hh; omega)
  have he : scan_bills_attempts outcome = List.range' 1 (p + 1) := by
    rw [scan_bills_attempts, h, show p + 2 - 1 = p + 1 from by omega]
  refine ⟨he, ?_, ?_⟩
  · rw [he, List.mem_range'_1]
    omega
  · rw [he, List.mem_range'_1]
    omega

/-- C4 witness: with every key missing, the first two consecutive misses
are keys 1 and 2; the scan attempts 2 and never attempts 3. -/
theorem scan_stops_after_two_misses_witness :
    (2 : Nat) ∈ scan_bills_attempts (fun _ => false) ∧
    (3 : Nat) ∉ scan_bills_attempts (fun _ => false) := by
  have h := scan_stops_after_two_misses (fun _ => false) 1 (by decide)
    (by decide) rfl rfl (by intro j hj1 hj2; exact absurd hj1 (by omega))
  exact ⟨h.2.1, h.2.2⟩

/-- When every key is found the open-ended loop never stops early: it
attempts every key from its cursor up to the ceiling and then stops at the
safety break, never running out of fuel. -/
lemma scanOpenFuel_all_found (C : Nat) :
    ∀ fuel n, 1 ≤ n → n ≤ C → C + 1 ≤ fuel + n →
      scanOpenFuel (fun _ => true) C fuel 0 n
        = List.range' n (C + 1 - n) := by
  intro fuel
  induction fuel with
  | zero => intro n _ _ h3; exact absurd h3 (by omega)
  | succ fuel ih =>
    intro n h1 h2 h3
    simp only [scanOpenFuel, if_pos (show (0 : Nat) < 2 by omega), if_true]
    by_cases hc : C < n + 1
    · rw [if_pos hc, show C + 1 - n = 1 by omega]
      rfl
    · rw [if_neg hc,
        show C + 1 - n = (C + 1 - (n + 1)) + 1 by omega, List.range'_succ]
      rw [ih (n + 1) (by omega) (by omega) (by omega)]

/-- C5: every open-ended scan terminates on every outcome sequence: one
bill type's scan attempts at most 10000 keys, all of them at most 10000 —
even when every fetch succeeds so the miss threshold is never reached, it
attempts exactly the keys 1 through 10000 and then stops at the safety
limit — and the member scan attempts exactly the 1500 person IDs 1 through
1500 and then stops. -/
theorem scan_safety_ceiling (outcome : Nat → Bool) :
    (scan_bills_attempts outcome).length ≤ 10000 ∧
    (∀ k, k ∈ scan_bills_attempts outcome → k ≤ 10000) ∧
    scan_bills_attempts (fun _ => true) = List.range' 1 10000 ∧
    scrape_members_for_year_attempts.length = 1500 ∧
    (∀ k, k ∈ scrape_members_for_year_attempts → 1 ≤ k ∧ k ≤ 1500) := by
  refine ⟨?_, ?_, ?_, ?_, ?_⟩
  · exact scanOpenFuel_length_le outcome 10000 10000 0 1
  · intro k hk
    exact scanOpenFuel_mem_le outcome 10000 10000 0 1 (by omega) k hk
  · rw [scan_bills_attempts,
      scanOpenFuel_all_found 10000 10000 1 (by omega) (by omega) (by omega)]
  · simp [scrape_members_for_year_attempts]
  · intro k hk
    rw [scrape_members_for_year_attempts, List.mem_range'_1] at hk
    omega

/-- C5 witness: in the all-miss scan the attempted key 1 is within the
ceiling, and member ID 42 is within 1 and 1500. -/
theorem scan_safety_ceiling_witness :
    (1 : Nat) ≤ 10000 ∧ (1 ≤ (42 : Nat) ∧ (42 : Nat) ≤ 1500) := by
  constructor
  · exact (scan_safety_ceiling (fun _ => false)).2.1 1 (by decide)
  · exact (scan_safety_ceiling (fun _ => false)).2.2.2.2 42 (by decide)

/-- The retry loop issues at most one request per remaining iteration. -/
lemma fetchLoopAux_attempts_le (results : Nat → AttemptResult) (mr : Nat) :
    ∀ remaining attempt,
      (fetchLoopAux results mr remaining attempt).attempts ≤ remaining := by
  intro remaining
  induction remaining with
  | zero => intro attempt; simp [fetchLoopAux]
  | succ r ih =>
    intro attempt
    cases hres : results attempt <;> simp [fetchLoopAux, hres] <;> exact ih _

/-- Full evaluation of a 3-retry loop whose three attempts all yield
transient outcomes: the result is `None`, exactly 3 requests are issued,
and the backoff sleeps are `[1, 2, 4]` (last attempt a non-404 status,
which sleeps even on the final attempt) or `[1, 2]` (last attempt a raised
request error, which skips the final sleep). -/
lemma fetch_loop_transient_eval (results : Nat → AttemptResult)
    (h0 : isTransient (results 0) = true)
    (h1 : isTransient (results 1) = true)
    (h2 : isTransient (results 2) = true) :
    (fetch_loop results 3).result = none ∧
    (fetch_loop results 3).attempts = 3 ∧
    ((fetch_loop results 3).sleeps = [1, 2, 4] ∨
      (fetch_loop results 3).sleeps = [1, 2]) := by
  cases hr0 : results 0 with
  | ok t => simp [hr0, isTransient] at h0
  | notFound => simp [hr0, isTransient] at h0
  | httpError c0 =>
    cases hr1 : results 1 with
    | ok t => simp [hr1, isTransient] at h1
    | notFound => simp [hr1, isTransient] at h1
    | httpError c1 =>
      cases hr2 : results 2 with
      | ok t => simp [hr2, isTransient] at h2
      | notFound => simp [hr2, isTransient] at h2
      | httpError c2 =>
        refine ⟨?_, ?_, Or.inl ?_⟩ <;>
          simp [fetch_loop, fetchLoopAux, hr0, hr1, hr2]
      | requestError m2 =>
        refine ⟨?_, ?_, Or.inr ?_⟩ <;>
          simp [fetch_loop, fetchLoopAux, hr0, hr1, hr2]
    | requestError m1 =>
      cases hr2 : results 2 with
      | ok t => simp [hr2, isTransient] at h2
      | notFound => simp [hr2, isTransient] at h2
      | httpError c2 =>
        refine ⟨?_, ?_, Or.inl ?_⟩ <;>
          simp [fetch_loop, fetchLoopAux, hr0, hr1, hr2]
      | requestError m2 =>
        refine ⟨?_, ?_, Or.inr ?_⟩ <;>
          simp [fetch_loop, fetchLoopAux, hr0, hr1, hr2]
  | requestError m0 =>
    cases hr1 : results 1 with
    | ok t => simp [hr1, isTransient] at h1
    | notFound => simp [hr1, isTransient] at h1
    | httpError c1 =>
      cases hr2 : results 2 with
      | ok t => simp [hr2, isTransient] at h2
      | notFound => simp [hr2, isTransient] at h2
      | httpError c2 =>
        refine ⟨?_, ?_, Or.inl ?_⟩ <;>
          simp [fetch_loop, fetchLoopAux, hr0, hr1, hr2]
      | requestError m2 =>
        refine ⟨?_, ?_, Or.inr ?_⟩ <;>
          simp [fetch_loop, fetchLoopAux, hr0, hr1, hr2]
    | requestError m1 =>
      cases hr2 : results 2 with
      | ok t => simp [hr2, isTransient] at h2
      | notFound => simp [hr2, isTransient] at h2
      | httpError c2 =>
        refine ⟨?_, ?_, Or.inl ?_⟩ <;>
          simp [fetch_loop, fetchLoopAux, hr0, hr1, hr2]
      | requestError m2 =>
        refine ⟨?_, ?_, Or.inr ?_⟩ <;>
          simp [fetch_loop, fetchLoopAux, hr0, hr1, hr2]

/-- C6: one fetch call issues at most `max_retries` request attempts
(default 3 for `fetch_bill_page`); when every attempt yields a transient
outcome (non-2xx/non-404 status, timeout or connection error), it issues
exactly 3 attempts, backing off `2 ^ attempt` seconds after the attempts —
strictly increasing delays — and returns the permanent-failure result
`None`. -/
theorem fetch_retry_bounds (bootstrapFails : Bool)
    (results : Nat → AttemptResult) (mr : Nat) :
    (fetch_loop results mr).attempts ≤ mr ∧
    (fetch_bill_page bootstrapFails results).loop.attempts ≤ 3 ∧
    (isTransient (results 0) = true → isTransient (results 1) = true →
      isTransient (results 2) = true →
      (fetch_bill_page bootstrapFails results).loop.attempts = 3 ∧
      (fetch_bill_page bootstrapFails results).loop.result = none ∧
      ((fetch_bill_page bootstrapFails results).loop.sleeps
          = [2 ^ 0, 2 ^ 1, 2 ^ 2] ∨
        (fetch_bill_page bootstrapFails results).loop.sleeps
          = [2 ^ 0, 2 ^ 1]) ∧
      List.Chain' (fun a b => a < b)
        (fetch_bill_page bootstrapFails results).loop.sleeps) := by
  refine ⟨fetchLoopAux_attempts_le results mr mr 0,
    fetchLoopAux_attempts_le results 3 3 0, ?_⟩
  intro h0 h1 h2
  have h := fetch_loop_transient_eval results h0 h1 h2
  have hl : (fetch_bill_page bootstrapFails results).loop
      = fetch_loop results 3 := rfl
  rw [hl]
  refine ⟨h.2.1, h.1, ?_, ?_⟩
  · rcases h.2.2 with hh | hh
    · left
      rw [hh]
      decide
    · right
      rw [hh]
      decide
  · rcases h.2.2 with hh | hh <;> rw [hh] <;> simp [List.chain'_cons]

/-- C6 witness: a fetch whose every attempt raises a connection error
issues exactly 3 attempts and returns `None`. -/
theorem fetch_retry_bounds_witness :
    (fetch_bill_page false
        (fun _ => AttemptResult.requestError "timeout")).loop.attempts = 3 ∧
    (fetch_bill_page false
        (fun _ => AttemptResult.requestError "timeout")).loop.result = none := by
  have h := (fetch_retry_bounds false
    (fun _ => AttemptResult.requestError "timeout") 3).2.2 rfl rfl rfl
  exact ⟨h.1, h.2.1⟩

/-- C9 (implicit): all three fetch functions return the identical value
`None` both when a response has status 404 (resource absent) and when all
retry attempts are exhausted on transient errors (resource unreachable), so
a caller of the fetch boundary cannot distinguish an Absent outcome from a
PermanentFailure outcome. -/
theorem fetch_conflates_absent_and_unreachable
    (r404 rfail : Nat → AttemptResult)
    (h404 : r404 0 = AttemptResult.notFound)
    (hf0 : isTransient (rfail 0) = true)
    (hf1 : isTransient (rfail 1) = true)
    (hf2 : isTransient (rfail 2) = true) :
    (fetch_bill_page false r404).loop.result = none ∧
    (fetch_bill_page false rfail).loop.result = none ∧
    (fetch_bill_page false r404).loop.result
      = (fetch_bill_page false rfail).loop.result ∧
    (fetch_member_page r404).loop.result
      = (fetch_member_page rfail).loop.result ∧
    (backend_fetch_page r404 3).result
      = (backend_fetch_page rfail 3).result := by
  have ha : (fetch_loop r404 3).result = none := by
    simp [fetch_loop, fetchLoopAux, h404]
  have hb := (fetch_loop_transient_eval rfail hf0 hf1 hf2).1
  exact ⟨ha, hb, ha.trans hb.symm, ha.trans hb.symm, ha.trans hb.symm⟩

/-- C9 witness: a straight 404 and a thrice-failing connection produce the
same return value from `fetch_bill_page`. -/
theorem fetch_conflates_absent_and_unreachable_witness :
    (fetch_bill_page false (fun _ => AttemptResult.notFound)).loop.result
      = (fetch_bill_page false
          (fun _ => AttemptResult.httpError 500)).loop.result :=
  (fetch_conflates_absent_and_unreachable
    (fun _ => AttemptResult.notFound)
    (fun _ => AttemptResult.httpError 500) rfl rfl rfl rfl).2.2.1

/-- C3 counterexample: an oracle under which every request raises a
connection error makes keys 1 and 2 PermanentFailure outcomes (each fetch
issues all 3 attempts and yields no 404), yet the scan's consecutive-miss
counter reaches the threshold on exactly those two failures and the scan
stops after attempting [1, 2], never attempting key 3: PermanentFailure
outcomes do increment the counter used for miss-limit termination,
contradicting the claim. -/
theorem scan_counts_failures_counterexample :
    (backend_fetch_page (fun _ => AttemptResult.requestError "reset") 3).result
      = none ∧
    (backend_fetch_page (fun _ => AttemptResult.requestError "reset") 3).attempts
      = 3 ∧
    scrape_bills_for_year_attempts
      (fun _ _ => AttemptResult.requestError "reset") = [1, 2] ∧
    (3 : Nat) ∉ scrape_bills_for_year_attempts
      (fun _ _ => AttemptResult.requestError "reset") := by
  refine ⟨?_, ?_, ?_, ?_⟩ <;> decide

/-- C3 amended: in the open-ended bill scan the consecutive-miss counter
resets to zero on every successful scrape (a fetched page with the valid
bill marker) and increments on every unsuccessful outcome — Absent (404)
and PermanentFailure (retries exhausted) alike, which the loop cannot
distinguish because both produce a `None` fetch result and a `False`
scrape outcome; both are counted toward miss-limit termination. -/
theorem scan_miss_counter_amended (results : Nat → Nat → AttemptResult)
    (fuel misses n : Nat) (hm : misses < 2) (hn : n + 1 ≤ 10000) :
    scanOpenFuel (fun m => backendScrapeBill (results m)) 10000 (fuel + 1)
        misses n
      = n :: scanOpenFuel (fun m => backendScrapeBill (results m)) 10000 fuel
          (if backendScrapeBill (results n) then 0 else misses + 1) (n + 1) ∧
    backendScrapeBill (fun _ => AttemptResult.notFound) = false ∧
    (∀ r : Nat → AttemptResult, isTransient (r 0) = true →
      isTransient (r 1) = true → isTransient (r 2) = true →
      backendScrapeBill r = false) ∧
    (∀ text, backendScrapeBill (fun _ => AttemptResult.ok text)
      = pageIsValidBill text) := by
  refine ⟨?_, by decide, ?_, fun text => rfl⟩
  · simp only [scanOpenFuel, if_pos hm, if_neg (show ¬ 10000 < n + 1 by omega)]
  · intro r h0 h1 h2
    have h := (fetch_loop_transient_eval r h0 h1 h2).1
    simp [backendScrapeBill, backend_fetch_page, h]

/-- C3 amended witness: at the start state (counter 0, key 1) the loop
attempts key 1 and, the all-404 oracle scraping unsuccessfully, continues
with counter 1. -/
theorem scan_miss_counter_amended_witness :
    backendScrapeBill (fun _ => AttemptResult.notFound) = false :=
  (scan_miss_counter_amended (fun _ _ => AttemptResult.notFound) 5 0 1
    (by decide) (by decide)).2.1

/-- C8 counterexample: the session bootstrap is not performed once per
fetch-client lifetime: a `BillScraper` that performs two fetches issues two
bootstrap requests — the second fetch call performs one again — so the
lifetime count is 2, not 1. -/
theorem bootstrap_every_call_counterexample :
    lifetimeBootstrapRequests
      [(false, fun _ => AttemptResult.ok "page1"),
       (false, fun _ => AttemptResult.ok "page2")] = 2 ∧
    lifetimeBootstrapRequests
      [(false, fun _ => AttemptResult.ok "page1"),
       (false, fun _ => AttemptResult.ok "page2")] ≠ 1 ∧
    (fetch_bill_page false (fun _ => AttemptResult.ok "page2")).bootstrapRequests
      = 1 := by
  refine ⟨?_, ?_, ?_⟩ <;> decide

/-- C8 amended: the session bootstrap runs once at the start of every
`fetch_bill_page` call — a client lifetime of n bill-page fetches performs
exactly n bootstrap requests, not one — and member-page fetches perform
none at all; the bootstrap's failure is swallowed and never prevents the
real fetch from being attempted: the retry-loop trace is identical whether
or not the bootstrap failed. -/
theorem bootstrap_per_call_amended
    (calls : List (Bool × (Nat → AttemptResult)))
    (b : Bool) (results : Nat → AttemptResult) :
    (fetch_bill_page b results).bootstrapRequests = 1 ∧
    lifetimeBootstrapRequests calls = calls.length ∧
    (fetch_member_page results).bootstrapRequests = 0 ∧
    (fetch_bill_page true results).loop
      = (fetch_bill_page false results).loop := by
  refine ⟨rfl, ?_, rfl, rfl⟩
  induction calls with
  | nil => rfl
  | cons c t ih =>
    simp only [lifetimeBootstrapRequests, fetch_bill_page, List.map_cons,
      List.sum_cons, List.length_cons] at ih ⊢
    omega
